import Mathlib

/-!
Verification development for the wlwv-calendar-frontend repository.

The repository's server code (src/server.js) contains two successive
revisions of the same Express/PostgreSQL service concatenated in one file:

* revision 4.0 (lines 1-1524): multi-school tables (events_wlhs, events_wvhs,
  life_curriculum_*, day_labels_*, special_days_*), an admin_sessions table,
  the requireAdmin middleware, and the curriculum join;
* revision 2.1 (lines 1525-2252): single shared tables (day_schedules,
  day_types, events, materials), the formatDate helper, and the clear-all
  route.  This revision has no admin-session machinery at all.

This file gives a shallow embedding of both revisions.  Tables are lists of
row structures, timestamps are naturals (milliseconds), SQL statements are
translated to the corresponding list operations, and a BEGIN/COMMIT/ROLLBACK
transaction is an Except-valued function whose error result leaves the
caller's state untouched (mirroring the explicit ROLLBACK in the source).
Audit columns (created_at/updated_at) are modelled only where a claim
mentions them; the ORDER BY clauses of list endpoints are omitted because no
claim depends on result order.
-/

namespace Calendar

/-! ## JavaScript value helpers -/

/-- Truthiness of a string-or-undefined JavaScript value: undefined and the
empty string are falsy, every other string is truthy. -/
def jsTruthy : Option String → Bool
  | none => false
  | some s => !(s == "")

/-- The JavaScript idiom `v || null` applied to a string-or-undefined value:
an empty string collapses to null. -/
def jsOrNull (o : Option String) : Option String :=
  if jsTruthy o then o else none

/-- Decimal value of a digit sequence (the usual left fold). -/
def digitsToNat (cs : List Char) : Nat :=
  cs.foldl (fun n c => n * 10 + (c.toNat - 48)) 0

/-- Model of JavaScript parseInt on an object key: optional leading spaces,
then leading decimal digits; anything else is NaN (none).  A sign prefix is
mapped to none as well: a negative grade fails the grade CHECK constraint
exactly as NaN fails the INTEGER cast, so the observable behaviour agrees. -/
def parseIntJs (s : String) : Option Nat :=
  let ds := (s.data.dropWhile (· == ' ')).takeWhile Char.isDigit
  if ds.isEmpty then none else some (digitsToNat ds)

/-! ## Revision 4.0 data model -/

/-- A row of the admin_sessions table. -/
structure SessionRow where
  session_id : String
  created_at : Nat
  expires_at : Nat
deriving Repr, DecidableEq

/-- A row of events_wlhs / events_wvhs.  The id column is SERIAL; audit
timestamps are omitted (no claim mentions them on events). -/
structure EventRow where
  id : Nat
  title : String
  date : String
  time : Option String
  department : String
  description : Option String
deriving Repr, DecidableEq

/-- A row of life_curriculum_wlhs / life_curriculum_wvhs.  The SERIAL id is
omitted: it is only used by the SQL aggregate to drop null-extended join
rows, which the direct join below never produces. -/
structure CurricRow where
  event_id : Nat
  grade : Nat
  links : Option String
  description : Option String
deriving Repr, DecidableEq

/-- A row of day_labels_wlhs / day_labels_wvhs (date is UNIQUE). -/
structure DayLabelRow where
  id : Nat
  date : String
  label : String
  created_at : Nat
  updated_at : Nat
deriving Repr, DecidableEq

/-- A row of special_days_wlhs / special_days_wvhs (date is UNIQUE). -/
structure SpecialDayRow where
  id : Nat
  date : String
  type : String
  description : String
  created_at : Nat
  updated_at : Nat
deriving Repr, DecidableEq

/-- The per-school tables of revision 4.0, with the SERIAL counters needed
by inserts that keep their generated ids. -/
structure SchoolTables where
  events : List EventRow
  curriculum : List CurricRow
  dayLabels : List DayLabelRow
  specialDays : List SpecialDayRow
  nextEventId : Nat
  nextLabelId : Nat
  nextSpecialId : Nat
deriving Repr, DecidableEq

/-- Full stored state of revision 4.0: one table family per school plus the
shared admin_sessions table. -/
structure State where
  wlhs : SchoolTables
  wvhs : SchoolTables
  sessions : List SessionRow
deriving Repr, DecidableEq

def emptySchoolTables : SchoolTables :=
  { events := [], curriculum := [], dayLabels := [], specialDays := [],
    nextEventId := 0, nextLabelId := 0, nextSpecialId := 0 }

def emptyState : State :=
  { wlhs := emptySchoolTables, wvhs := emptySchoolTables, sessions := [] }

/-- validateSchool from server.js: the fixed school-code set. -/
def validateSchool (school : String) : Bool :=
  school == "wlhs" || school == "wvhs"

/-! ## Session store and admin gate (revision 4.0) -/

/-- The session lookup shared by requireAdmin and POST /api/admin/verify:
SELECT * FROM admin_sessions WHERE session_id = $1 AND expires_at > NOW(). -/
def sessionQuery (sessions : List SessionRow) (sid : String) (now : Nat) :
    List SessionRow :=
  sessions.filter (fun r => r.session_id == sid && decide (now < r.expires_at))

/-- The session check of POST /api/admin/verify: a falsy (absent or empty)
token is rejected before the query; otherwise valid iff the query returns a
row.  Total by construction, so it never throws on these inputs. -/
def validateSession (sessions : List SessionRow) (now : Nat)
    (tok : Option String) : Bool :=
  match tok with
  | none => false
  | some sid =>
    if sid == "" then false
    else !(sessionQuery sessions sid now).isEmpty

/-- The requireAdmin middleware wrapped around a mutating handler: a falsy
X-Admin-Session header or an empty session query yields 401 without running
the handler. -/
def gate (handler : State → State × Nat) (hdr : Option String) (now : Nat)
    (s : State) : State × Nat :=
  match hdr with
  | none => (s, 401)
  | some sid =>
    if sid == "" then (s, 401)
    else if (sessionQuery s.sessions sid now).isEmpty then (s, 401)
    else handler s

/-- Fixed admin-session lifetime: 8 hours in milliseconds. -/
def sessionLifetime : Nat := 28800000

/-- POST /api/admin/login: on the shared password, delete rows whose expiry
has already passed, then insert one fresh row.  The generated session id is
passed in as a parameter (it comes from Math.random/Date.now in the source). -/
def login (s : State) (now : Nat) (newSid : String) (password : String) :
    State × Nat :=
  if password == "Lions" then
    let kept := s.sessions.filter (fun r => !decide (r.expires_at < now))
    ({ s with sessions :=
        kept ++ [{ session_id := newSid, created_at := now,
                   expires_at := now + sessionLifetime }] }, 200)
  else (s, 401)

/-- POST /api/admin/logout: delete the row matching the supplied token; a
falsy token deletes nothing; the response is success either way. -/
def logout (s : State) (sid : Option String) : State × Nat :=
  match sid with
  | none => (s, 200)
  | some tok =>
    if tok == "" then (s, 200)
    else ({ s with sessions :=
            s.sessions.filter (fun r => !(r.session_id == tok)) }, 200)

/-! ## Events with curriculum (revision 4.0)

POST /api/:school/events and PUT /api/:school/events/:id run the event write
and the full replace of the life_curriculum child rows inside one
BEGIN/COMMIT transaction; any error triggers ROLLBACK and a 500 response.
The transaction body is an Except-valued function; the route keeps the old
state on error, which is exactly the rollback semantics the store provides.
NOT NULL column constraints (title, date, department) and the grade CHECK
(9..12) are the failure points modelled; they are the constraints of the
CREATE TABLE statements in createTables. -/

/-- One per-grade entry of the lifeCurriculum request object: the object key
(a string) paired with its links/description fields. -/
structure CurricReq where
  links : Option String
  description : Option String
deriving Repr, DecidableEq

/-- Request body of POST/PUT /api/:school/events[/:id].  lifeCurriculum is
the JS object as a key-ordered list of entries: for integer-index keys,
Object.entries enumerates them in ascending numeric order, so the embedded
list carries the grades ascending. -/
structure EventReq where
  title : Option String
  date : Option String
  time : Option String
  department : Option String
  description : Option String
  lifeCurriculum : Option (List (String × CurricReq))
deriving Repr, DecidableEq

/-- The grade CHECK constraint of the life_curriculum tables. -/
def gradeOk (g : Nat) : Bool :=
  decide (9 ≤ g) && decide (g ≤ 12)

/-- INSERT INTO life_curriculum_school (event_id, grade, links, description). -/
def addCurric (st : SchoolTables) (eid g : Nat)
    (links descr : Option String) : SchoolTables :=
  { st with curriculum :=
      st.curriculum ++ [{ event_id := eid, grade := g, links := links,
                          description := descr }] }

/-- The for-of loop over Object.entries(lifeCurriculum): entries whose links
and description are both falsy are skipped; the others are inserted, where a
NaN or out-of-range grade makes the INSERT fail (INTEGER cast / CHECK). -/
def insertEntries (eid : Nat) :
    SchoolTables → List (String × CurricReq) → Except Unit SchoolTables
  | st, [] => .ok st
  | st, (g, c) :: rest =>
    if jsTruthy c.links || jsTruthy c.description then
      match parseIntJs g with
      | none => .error ()
      | some gi =>
        if gradeOk gi then
          insertEntries eid
            (addCurric st eid gi (jsOrNull c.links) (jsOrNull c.description))
            rest
        else .error ()
    else insertEntries eid st rest

/-- The entries the loop actually inserts: those with a truthy links or
description field. -/
def goodEntries (l : List (String × CurricReq)) : List (String × CurricReq) :=
  l.filter (fun gc => jsTruthy gc.2.links || jsTruthy gc.2.description)

/-- The child row written for one retained entry. -/
def entryRow (eid : Nat) (g : String) (c : CurricReq) : CurricRow :=
  { event_id := eid, grade := (parseIntJs g).getD 0,
    links := jsOrNull c.links, description := jsOrNull c.description }

/-- The full child set a successful transaction commits. -/
def validRows (eid : Nat) (l : List (String × CurricReq)) : List CurricRow :=
  (goodEntries l).map (fun gc => entryRow eid gc.1 gc.2)

/-- The event row inserted by POST /api/:school/events. -/
def mkEvent (i : Nat) (t d : String) (time : Option String) (dep : String)
    (descr : Option String) : EventRow :=
  { id := i, title := t, date := d, time := time, department := dep,
    description := descr }

/-- Transaction body of POST /api/:school/events: insert the event (NOT NULL
title/date/department), then insert every retained curriculum entry. -/
def txCreate (st : SchoolTables) (req : EventReq) : Except Unit SchoolTables :=
  match req.title, req.date, req.department with
  | some t, some d, some dep =>
    let ev := mkEvent st.nextEventId t d (jsOrNull req.time) dep req.description
    let st1 := { st with events := st.events ++ [ev],
                         nextEventId := st.nextEventId + 1 }
    match req.lifeCurriculum with
    | some lc => insertEntries st.nextEventId st1 lc
    | none => .ok st1
  | _, _, _ => .error ()

/-- POST /api/:school/events after the gate and school validation: COMMIT on
success (201 Created), ROLLBACK to the prior state on any error (500). -/
def postEvent (st : SchoolTables) (req : EventReq) : SchoolTables × Nat :=
  match txCreate st req with
  | .ok st2 => (st2, 201)
  | .error _ => (st, 500)

/-- The state after the first two statements of the update transaction:
UPDATE the matching event row, then DELETE its existing curriculum rows. -/
def updatedState (st : SchoolTables) (id : Nat) (t d : String)
    (tm : Option String) (dep : String) (descr : Option String) :
    SchoolTables :=
  { st with
    events := st.events.map (fun e =>
      if e.id == id then
        { e with title := t, date := d, time := tm, department := dep,
                 description := descr }
      else e),
    curriculum := st.curriculum.filter (fun c => !(c.event_id == id)) }

/-- Transaction body of PUT /api/:school/events/:id: UPDATE the event row
(404 with rollback when no row matches, constraint error when a NOT NULL
column is set to null on a matched row), DELETE the existing children, then
reinsert the new set.  The error payload is the response status. -/
def txUpdate (st : SchoolTables) (id : Nat) (req : EventReq) :
    Except Nat SchoolTables :=
  if st.events.any (fun e => e.id == id) then
    match req.title, req.date, req.department with
    | some t, some d, some dep =>
      match req.lifeCurriculum with
      | some lc =>
        (insertEntries id
          (updatedState st id t d (jsOrNull req.time) dep req.description)
          lc).mapError (fun _ => 500)
      | none =>
        .ok (updatedState st id t d (jsOrNull req.time) dep req.description)
    | _, _, _ => .error 500
  else .error 404

/-- PUT /api/:school/events/:id after the gate and school validation. -/
def putEvent (st : SchoolTables) (id : Nat) (req : EventReq) :
    SchoolTables × Nat :=
  match txUpdate st id req with
  | .ok st2 => (st2, 200)
  | .error c => (st, c)

/-! ## Listing events with the curriculum join (revision 4.0) -/

/-- One element of the aggregated life_curriculum JSON list. -/
structure CurricView where
  grade : Nat
  links : Option String
  description : Option String
deriving Repr, DecidableEq

/-- One row of the GET /api/:school/events response: the event columns plus
the aggregated life_curriculum list (the COALESCE to the empty JSON array
makes it a plain list, never null and never omitted). -/
structure EventView where
  event : EventRow
  life_curriculum : List CurricView
deriving Repr, DecidableEq

/-- The LEFT JOIN + json_agg aggregate for one event: its child rows, in
table order, projected to (grade, links, description).  The FILTER clause of
the source only removes the null-extended row of a childless event, which
this direct join never produces; the COALESCE then yields the empty list. -/
def curricViewsOf (st : SchoolTables) (eid : Nat) : List CurricView :=
  (st.curriculum.filter (fun c => c.event_id == eid)).map
    (fun c => { grade := c.grade, links := c.links,
                description := c.description })

/-- The WHERE clause of GET /api/:school/events: a truthy department other
than the sentinel value master narrows the event set. -/
def eventsInScope (st : SchoolTables) (department : Option String) :
    List EventRow :=
  match department with
  | some d =>
    if !(d == "") && !(d == "master") then
      st.events.filter (fun e => e.department == d)
    else st.events
  | none => st.events

/-- GET /api/:school/events (ORDER BY e.date, e.time omitted: no claim
depends on the order of the events themselves). -/
def getEvents (st : SchoolTables) (department : Option String) :
    List EventView :=
  (eventsInScope st department).map
    (fun e => { event := e, life_curriculum := curricViewsOf st e.id })

/-- The aggregated views a create request should produce: exactly its
retained entries, in request-key order. -/
def reqViews (l : List (String × CurricReq)) : List CurricView :=
  (goodEntries l).map (fun gc =>
    { grade := (parseIntJs gc.1).getD 0, links := jsOrNull gc.2.links,
      description := jsOrNull gc.2.description })

/-- The grades of the retained entries of a request. -/
def gradeNums (l : List (String × CurricReq)) : List Nat :=
  (goodEntries l).map (fun gc => (parseIntJs gc.1).getD 0)

/-! ## Day labels and special days (revision 4.0) -/

/-- The conflict branch of the day-label upsert applied to one row: the row
for the date gets the new label and a refreshed updated_at, every other row
is untouched. -/
def updDL (date label : String) (now : Nat) (r : DayLabelRow) : DayLabelRow :=
  if r.date == date then { r with label := label, updated_at := now } else r

/-- PUT /api/:school/day-labels/:date: INSERT ... ON CONFLICT (date) DO
UPDATE SET label = EXCLUDED.label, updated_at = CURRENT_TIMESTAMP.  With the
UNIQUE constraint on date this is: update the existing row for the date if
there is one, else insert a fresh row.  The label value is not validated. -/
def putDayLabel (st : SchoolTables) (date label : String) (now : Nat) :
    SchoolTables × Nat :=
  if st.dayLabels.any (fun r => r.date == date) then
    ({ st with dayLabels := st.dayLabels.map (updDL date label now) }, 200)
  else
    ({ st with
        dayLabels := st.dayLabels ++
          [{ id := st.nextLabelId, date := date, label := label,
             created_at := now, updated_at := now }],
        nextLabelId := st.nextLabelId + 1 }, 200)

/-- GET /api/:school/day-labels (ORDER BY date omitted). -/
def getDayLabels (st : SchoolTables) : List DayLabelRow :=
  st.dayLabels

/-- The six allowed special-day types of PUT /api/:school/special-days. -/
def allowedTypes : List String :=
  ["finals", "grading-day", "access", "early-release", "holiday",
   "staff-development"]

/-- PUT /api/:school/special-days/:date: the sentinel type normal deletes
the row for the date; an allowed type upserts; anything else is a 400. -/
def putSpecialDay (st : SchoolTables) (date ty : String)
    (descr : Option String) (now : Nat) : SchoolTables × Nat :=
  if ty == "normal" then
    ({ st with specialDays :=
        st.specialDays.filter (fun r => !(r.date == date)) }, 200)
  else if allowedTypes.contains ty then
    if st.specialDays.any (fun r => r.date == date) then
      ({ st with specialDays := st.specialDays.map (fun r =>
          if r.date == date then
            { r with type := ty, description := descr.getD "",
                     updated_at := now }
          else r) }, 200)
    else
      ({ st with
          specialDays := st.specialDays ++
            [{ id := st.nextSpecialId, date := date, type := ty,
               description := descr.getD "", created_at := now,
               updated_at := now }],
          nextSpecialId := st.nextSpecialId + 1 }, 200)
  else (st, 400)

/-- GET /api/:school/special-days (ORDER BY date omitted). -/
def getSpecialDays (st : SchoolTables) : List SpecialDayRow :=
  st.specialDays

/-! ## Route wrappers with school validation (revision 4.0)

Each per-school route validates the school code before touching a table; an
invalid code returns 400 with no query run.  The wrappers below model the
two routes cited by the validation claim. -/

def putDayLabelRoute (s : State) (school date label : String) (now : Nat) :
    State × Nat :=
  if school == "wlhs" then
    let r := putDayLabel s.wlhs date label now
    ({ s with wlhs := r.1 }, r.2)
  else if school == "wvhs" then
    let r := putDayLabel s.wvhs date label now
    ({ s with wvhs := r.1 }, r.2)
  else (s, 400)

def putSpecialDayRoute (s : State) (school date ty : String)
    (descr : Option String) (now : Nat) : State × Nat :=
  if school == "wlhs" then
    let r := putSpecialDay s.wlhs date ty descr now
    ({ s with wlhs := r.1 }, r.2)
  else if school == "wvhs" then
    let r := putSpecialDay s.wvhs date ty descr now
    ({ s with wvhs := r.1 }, r.2)
  else (s, 400)

/-! ## Calendar dates and formatDate (revision 2.1) -/

/-- A civil calendar date, the value stored by a PostgreSQL DATE column and
carried by a JavaScript Date object in the model. -/
structure CivilDate where
  year : Nat
  month : Nat
  day : Nat
deriving Repr, DecidableEq

def isLeap (y : Nat) : Bool :=
  (y % 4 == 0 && !(y % 100 == 0)) || y % 400 == 0

def daysInMonth (y m : Nat) : Nat :=
  if m == 2 then (if isLeap y then 29 else 28)
  else if m == 4 || m == 6 || m == 9 || m == 11 then 30
  else 31

/-- Validity of a civil date within the model's range (4-digit years, so the
padded ISO rendering below matches Date.prototype.toISOString). -/
def validCivil (c : CivilDate) : Bool :=
  decide (1 ≤ c.month) && decide (c.month ≤ 12) &&
  decide (1 ≤ c.day) && decide (c.day ≤ daysInMonth c.year c.month) &&
  decide (c.year ≤ 9999)

/-- Result of the modelled fragment of the JavaScript Date string parser.
new Date(s) is either an Invalid Date (nan), or an instant whose ISO
calendar-day rendering the model can compute (date), or an instant — or
possibly an Invalid Date — in a shape whose outcome depends on the engine's
legacy parser or on the server's local time zone (unmodelled), such as
2025-6-1 or a date-time without a trailing Z. -/
inductive DateParse where
  | nan : DateParse
  | date : CivilDate → DateParse
  | unmodelled : DateParse
deriving Repr, DecidableEq

/-- Hour and minute fields of an ISO time, in range (hours 00-23 so the
instant stays inside the named UTC calendar day). -/
def hmOk (h1 h2 m1 m2 : Char) : Bool :=
  h1.isDigit && h2.isDigit && m1.isDigit && m2.isDigit &&
  decide (digitsToNat [h1, h2] ≤ 23) && decide (digitsToNat [m1, m2] ≤ 59)

/-- Seconds field of an ISO time, in range. -/
def ssOk (s1 s2 : Char) : Bool :=
  s1.isDigit && s2.isDigit && decide (digitsToNat [s1, s2] ≤ 59)

/-- An ISO time-of-day anchored to UTC by a trailing Z: HH:mm, HH:mm:ss or
HH:mm:ss.sss, all fields in range. -/
def utcTimeZ : List Char → Bool
  | [h1, h2, ':', m1, m2, 'Z'] => hmOk h1 h2 m1 m2
  | [h1, h2, ':', m1, m2, ':', s1, s2, 'Z'] =>
    hmOk h1 h2 m1 m2 && ssOk s1 s2
  | [h1, h2, ':', m1, m2, ':', s1, s2, '.', f1, f2, f3, 'Z'] =>
    hmOk h1 h2 m1 m2 && ssOk s1 s2 &&
    (f1.isDigit && f2.isDigit && f3.isDigit)
  | _ => false

/-- Shapes the model does not decide.  A string containing a digit may still
reach the engine's legacy parser (2025-6-1, 6/1/2025, June 1 2025, ...), so
the model stays silent on it; a string with no digit at all is an Invalid
Date in every engine, since both the ISO grammar and the legacy forms
require numeric components. -/
def dateFallback (s : String) : DateParse :=
  if s.data.any Char.isDigit then DateParse.unmodelled else DateParse.nan

/-- The modelled fragment of new Date(s): a strict ISO YYYY-MM-DD string
naming a real calendar date parses as UTC midnight of that day, and an ISO
date-time anchored to UTC by a trailing Z keeps the same UTC calendar day
for any time of day 00:00-23:59, so in both cases the ISO date part of the
parsed instant is the named date (this covers 2025-06-01T00:00:00.000Z, the
JSON rendering of a native Date).  ISO-shaped strings with out-of-range
fields, numeric offsets instead of Z, date-times without a time zone (local
time) and legacy forms are left undecided rather than misjudged. -/
def jsNewDate (s : String) : DateParse :=
  match s.data with
  | y1 :: y2 :: y3 :: y4 :: '-' :: m1 :: m2 :: '-' :: d1 :: d2 :: rest =>
    if y1.isDigit && y2.isDigit && y3.isDigit && y4.isDigit &&
       m1.isDigit && m2.isDigit && d1.isDigit && d2.isDigit then
      let d : CivilDate :=
        { year := digitsToNat [y1, y2, y3, y4],
          month := digitsToNat [m1, m2], day := digitsToNat [d1, d2] }
      if validCivil d then
        match rest with
        | [] => DateParse.date d
        | 'T' :: time =>
          if utcTimeZ time then DateParse.date d else DateParse.unmodelled
        | _ => DateParse.unmodelled
      else DateParse.unmodelled
    else dateFallback s
  | _ => dateFallback s

/-- One concrete engine parse function, agreeing with the modelled fragment
everywhere jsNewDate decides; it is used to evaluate the routes on concrete
inputs.  (On unmodelled shapes it answers none, and no theorem below is
stated about those shapes.) -/
def modelParse (s : String) : Option CivilDate :=
  match jsNewDate s with
  | DateParse.date d => some d
  | _ => none

def padNat (width n : Nat) : String :=
  let s := toString n
  if s.length < width then
    String.mk (List.replicate (width - s.length) '0') ++ s
  else s

/-- The date part of Date.prototype.toISOString: zero-padded YYYY-MM-DD. -/
def toISODate (c : CivilDate) : String :=
  padNat 4 c.year ++ "-" ++ padNat 2 c.month ++ "-" ++ padNat 2 c.day

/-- Inputs of the formatDate helper: a nullish value, a native Date object
(carrying its civil date), or a string. -/
inductive JsDateInput where
  | nullish : JsDateInput
  | obj : CivilDate → JsDateInput
  | str : String → JsDateInput
deriving Repr, DecidableEq

/-- formatDate from server.js revision 2.1, parameterised by the engine's
string-date parse p: p s stands for the calendar day rendered by
new Date(s).toISOString().split('T')[0], none when new Date(s) is an
Invalid Date.  Statements below quantify over every p, and jsNewDate pins p
down on the fragment the model decides.  A nullish input (including the
empty string, which is falsy) maps to null; a Date object is rendered as
its ISO date part; a string is parsed and rendered, throwing on an
unparseable value.  The thrown error is the Except error. -/
def formatDate (p : String → Option CivilDate) :
    JsDateInput → Except String (Option String)
  | .nullish => .ok none
  | .obj d => .ok (some (toISODate d))
  | .str s =>
    if s == "" then .ok none
    else
      match p s with
      | none => .error "Invalid date format"
      | some d => .ok (some (toISODate d))

/-! ## Revision 2.1 data model -/

/-- A row of the day_schedules table (date is the PRIMARY KEY). -/
structure DSRow where
  date : CivilDate
  schedule : String
deriving Repr, DecidableEq

/-- A row of the day_types table (date is the PRIMARY KEY). -/
structure DTRow where
  date : CivilDate
  type : String
deriving Repr, DecidableEq

/-- A row of the shared events table of revision 2.1. -/
structure EvRowV2 where
  id : Nat
  school : String
  date : CivilDate
  title : String
  department : Option String
  time : Option String
  description : String
deriving Repr, DecidableEq

/-- A row of the materials table. -/
structure MatRow where
  id : Nat
  school : String
  date : CivilDate
  grade_level : Nat
  title : String
  link : String
  description : String
deriving Repr, DecidableEq

/-- The full stored state of revision 2.1: the four tables created by
POST /api/init.  This revision has no admin_sessions table and no
session-checking middleware of any kind. -/
structure TablesV2 where
  day_schedules : List DSRow
  day_types : List DTRow
  events : List EvRowV2
  materials : List MatRow
deriving Repr, DecidableEq

def emptyTablesV2 : TablesV2 :=
  { day_schedules := [], day_types := [], events := [], materials := [] }

/-- Request body of POST /api/day-schedules. -/
structure DSReq where
  date : Option String
  schedule : Option String
deriving Repr, DecidableEq

/-- Falsiness of the schedule field: absent, null, or the empty string. -/
def jsStrFalsy : Option String → Bool
  | none => true
  | some s => s == ""

/-- The ON CONFLICT (date) DO UPDATE upsert of the day_schedules table. -/
def upsertDS (l : List DSRow) (d : CivilDate) (sch : String) : List DSRow :=
  if l.any (fun r => r.date == d) then
    l.map (fun r => if r.date == d then { r with schedule := sch } else r)
  else l ++ [{ date := d, schedule := sch }]

/-- POST /api/day-schedules, parameterised by the engine's string-date
parse p as in formatDate: a falsy date is a 400; formatDate throwing on an
unparseable date is caught by the route's try/catch, which answers 500; a
falsy schedule deletes the row for the date (the clear sentinel); a schedule
outside A/B is a 400; otherwise the row is upserted.  The third component is
the date echoed in the success body. -/
def postDaySchedule (p : String → Option CivilDate) (tb : TablesV2)
    (req : DSReq) : TablesV2 × Nat × Option String :=
  match req.date with
  | none => (tb, 400, none)
  | some ds =>
    if ds == "" then (tb, 400, none)
    else
      match p ds with
      | none => (tb, 500, none)
      | some d =>
        if jsStrFalsy req.schedule then
          ({ tb with day_schedules :=
              tb.day_schedules.filter (fun r => !(r.date == d)) },
           200, some (toISODate d))
        else
          let sch := req.schedule.getD ""
          if sch == "A" || sch == "B" then
            ({ tb with day_schedules := upsertDS tb.day_schedules d sch },
             200, some (toISODate d))
          else (tb, 400, none)

/-- One row of the GET /api/day-schedules response body. -/
structure DSView where
  date : String
  schedule : String
deriving Repr, DecidableEq

/-- GET /api/day-schedules: every row is mapped through formatDate on the
way out (the driver hands the DATE column to JavaScript as a Date object).
The catch-all branch is unreachable: formatDate on a Date object always
succeeds, for any engine parse p. -/
def getDaySchedules (p : String → Option CivilDate) (tb : TablesV2) :
    List DSView :=
  tb.day_schedules.map (fun r =>
    match formatDate p (JsDateInput.obj r.date) with
    | .ok (some s) => { date := s, schedule := r.schedule }
    | _ => { date := "", schedule := r.schedule })

/-- DELETE /api/clear-all of revision 2.1.  The route's comment calls it an
admin function, but the handler reads no session header and performs no
check of any kind before issuing DELETE FROM materials, events,
day_schedules and day_types; it answers success unconditionally. -/
def clearAll (tb : TablesV2) : TablesV2 × Nat :=
  ({ tb with materials := [], events := [], day_schedules := [],
             day_types := [] }, 200)

/-! ## Concrete example states used by witnesses -/

def exSessions : List SessionRow :=
  [{ session_id := "livetok", created_at := 0, expires_at := 1000 },
   { session_id := "oldtok", created_at := 0, expires_at := 40 }]

def exState : State :=
  { wlhs := emptySchoolTables, wvhs := emptySchoolTables,
    sessions := exSessions }

/-- A mutating handler used to witness that the gate never reaches the
wrapped handler: it drops every stored session row. -/
def exMutator : State → State × Nat :=
  fun s => ({ s with sessions := [] }, 200)

def exCurricReq : List (String × CurricReq) :=
  [("9", { links := some "http://x", description := none }),
   ("11", { links := none, description := some "y" })]

def exEventReq : EventReq :=
  { title := some "Assembly", date := some "2025-09-02", time := none,
    department := some "life", description := none,
    lifeCurriculum := some exCurricReq }

/-- A create request whose curriculum grade violates the CHECK constraint. -/
def exBadEventReq : EventReq :=
  { title := some "Assembly", date := some "2025-09-02", time := none,
    department := some "life", description := none,
    lifeCurriculum := some [("15", { links := some "x", description := none })] }

/-- Per-school tables holding one special day, one day label and one event,
used to exercise the clear-sentinel and validation behaviour. -/
def exSpecialTables : SchoolTables :=
  { emptySchoolTables with
    specialDays := [{ id := 0, date := "2025-06-16", type := "finals",
                      description := "Final exams begin", created_at := 0,
                      updated_at := 0 }],
    nextSpecialId := 1 }

def exTablesV2 : TablesV2 :=
  { day_schedules := [{ date := { year := 2025, month := 6, day := 1 },
                        schedule := "A" }],
    day_types := [{ date := { year := 2025, month := 6, day := 16 },
                    type := "finals" }],
    events := [{ id := 1, school := "wlhs",
                 date := { year := 2025, month := 9, day := 2 },
                 title := "First Day", department := none, time := none,
                 description := "" }],
    materials := [{ id := 1, school := "wlhs",
                    date := { year := 2025, month := 9, day := 2 },
                    grade_level := 9, title := "Syllabus",
                    link := "http://x", description := "" }] }

/-! ## Helper lemmas -/

theorem sessionQuery_eq_nil {sessions : List SessionRow} {tok : String}
    {now : Nat}
    (h : ∀ r ∈ sessions, r.session_id = tok → r.expires_at ≤ now) :
    sessionQuery sessions tok now = [] := by
  refine List.filter_eq_nil_iff.mpr fun r hr => ?_
  simp only [Bool.and_eq_true, beq_iff_eq, decide_eq_true_eq, not_and]
  exact fun h1 h2 => absurd h2 (Nat.not_lt.mpr (h r hr h1))

theorem sessionQuery_mem_iff {sessions : List SessionRow} {tok : String}
    {now : Nat} {r : SessionRow} :
    r ∈ sessionQuery sessions tok now ↔
      r ∈ sessions ∧ r.session_id = tok ∧ now < r.expires_at := by
  simp [sessionQuery, List.mem_filter, and_assoc]

theorem validateSession_some (sessions : List SessionRow) (now : Nat)
    (tok : String) (h : (tok == "") = false) :
    validateSession sessions now (some tok) =
      !(sessionQuery sessions tok now).isEmpty := by
  simp [validateSession, h]

theorem validateSession_false_of_nil {sessions : List SessionRow} {now : Nat}
    {tok : String} (h : (tok == "") = false)
    (hq : sessionQuery sessions tok now = []) :
    validateSession sessions now (some tok) = false := by
  rw [validateSession_some sessions now tok h, hq]
  rfl

theorem login_ok_sessions (s : State) (now : Nat) (sid : String) :
    (login s now sid "Lions").1.sessions =
      s.sessions.filter (fun r => !decide (r.expires_at < now)) ++
        [{ session_id := sid, created_at := now,
           expires_at := now + sessionLifetime }] := by
  simp [login]

theorem login_bad {pwd : String} (hp : pwd ≠ "Lions") (s : State) (now : Nat)
    (sid : String) : login s now sid pwd = (s, 401) := by
  have hp2 : (pwd == "Lions") = false := by simpa using hp
  simp [login, hp2]

theorem logout_sessions {tok : String} (h : (tok == "") = false) (s : State) :
    (logout s (some tok)).1.sessions =
      s.sessions.filter (fun r => !(r.session_id == tok)) := by
  simp [logout, h]

theorem insertEntries_ok (eid : Nat) (l : List (String × CurricReq)) :
    ∀ (st st2 : SchoolTables), insertEntries eid st l = .ok st2 →
      st2 = { st with curriculum := st.curriculum ++ validRows eid l } := by
  induction l with
  | nil =>
    intro st st2 h
    simp only [insertEntries, Except.ok.injEq] at h
    subst h
    simp [validRows, goodEntries]
  | cons gc rest ih =>
    intro st st2 h
    obtain ⟨g, c⟩ := gc
    simp only [insertEntries] at h
    by_cases htr : (jsTruthy c.links || jsTruthy c.description) = true
    · rw [if_pos htr] at h
      split at h
      · cases h
      · rename_i gi hp
        split at h
        · rename_i hg
          have h2 := ih _ _ h
          subst h2
          simp [addCurric, validRows, goodEntries, htr, entryRow, hp,
            List.append_assoc]
        · cases h
    · rw [if_neg htr] at h
      have htr2 : (jsTruthy c.links || jsTruthy c.description) = false := by
        simpa using htr
      have h2 := ih _ _ h
      subst h2
      simp [validRows, goodEntries, htr2]

theorem txCreate_ok {st st2 : SchoolTables} {req : EventReq}
    (h : txCreate st req = .ok st2) :
    ∃ t d dep, req.title = some t ∧ req.date = some d ∧
      req.department = some dep ∧
      st2 = { st with
        events := st.events ++
          [mkEvent st.nextEventId t d (jsOrNull req.time) dep
            req.description],
        nextEventId := st.nextEventId + 1,
        curriculum := st.curriculum ++
          validRows st.nextEventId (req.lifeCurriculum.getD []) } := by
  unfold txCreate at h
  cases ht : req.title with
  | none => rw [ht] at h; cases h
  | some t =>
  cases hd : req.date with
  | none => rw [ht, hd] at h; cases h
  | some d =>
  cases hdep : req.department with
  | none => rw [ht, hd, hdep] at h; cases h
  | some dep =>
  rw [ht, hd, hdep] at h
  refine ⟨t, d, dep, rfl, rfl, rfl, ?_⟩
  cases hlc : req.lifeCurriculum with
  | none =>
    rw [hlc] at h
    simp only [Except.ok.injEq] at h
    subst h
    simp [validRows, goodEntries]
  | some lc =>
    rw [hlc] at h
    have h2 := insertEntries_ok _ _ _ _ h
    subst h2
    simp

theorem txUpdate_ok {st st2 : SchoolTables} {id : Nat} {req : EventReq}
    (h : txUpdate st id req = .ok st2) :
    ∃ t d dep, req.title = some t ∧ req.date = some d ∧
      req.department = some dep ∧
      st2 = { st with
        events := st.events.map (fun e =>
          if e.id == id then
            { e with title := t, date := d, time := jsOrNull req.time,
                     department := dep, description := req.description }
          else e),
        curriculum := st.curriculum.filter (fun c => !(c.event_id == id)) ++
          validRows id (req.lifeCurriculum.getD []) } := by
  unfold txUpdate at h
  split at h
  · split at h
    · rename_i t d dep ht hd hdep
      refine ⟨t, d, dep, ht, hd, hdep, ?_⟩
      split at h
      · rename_i lc hlc
        cases hins : insertEntries id
            (updatedState st id t d (jsOrNull req.time) dep req.description)
            lc with
        | error e => rw [hins] at h; cases h
        | ok st3 =>
          rw [hins] at h
          simp only [Except.mapError, Except.ok.injEq] at h
          subst h
          have h2 := insertEntries_ok _ _ _ _ hins
          subst h2
          simp [hlc, updatedState]
      · rename_i hlc
        simp only [Except.ok.injEq] at h
        subst h
        simp [hlc, validRows, goodEntries, updatedState]
    · cases h
  · cases h

theorem txUpdate_error {st : SchoolTables} {id : Nat} {req : EventReq}
    {c : Nat} (h : txUpdate st id req = .error c) : c = 404 ∨ c = 500 := by
  unfold txUpdate at h
  split at h
  · split at h
    · split at h
      · rename_i t d dep ht hd hdep lc hlc
        simp only [Except.mapError] at h
        split at h
        · cases h; exact Or.inr rfl
        · cases h
      · cases h
    · cases h; exact Or.inr rfl
  · cases h; exact Or.inl rfl

theorem updDL_date (date label : String) (now : Nat) (r : DayLabelRow) :
    (updDL date label now r).date = r.date := by
  unfold updDL
  split <;> rfl

theorem dayLabels_filter_map (rows : List DayLabelRow) (d l : String)
    (t : Nat) (d2 : String) :
    (rows.map (updDL d l t)).filter (fun r => r.date == d2) =
      (rows.filter (fun r => r.date == d2)).map (updDL d l t) := by
  rw [List.filter_map]
  congr 1
  apply List.filter_congr
  intro r _
  simp [Function.comp, updDL_date]

theorem putDayLabel_dayLabels_update {st : SchoolTables} {d : String}
    (l : String) (t : Nat)
    (hex : (st.dayLabels.any fun r => r.date == d) = true) :
    (putDayLabel st d l t).1.dayLabels = st.dayLabels.map (updDL d l t) := by
  unfold putDayLabel
  rw [if_pos hex]

theorem putDayLabel_dayLabels_insert {st : SchoolTables} {d : String}
    (l : String) (t : Nat)
    (hex : ¬ (st.dayLabels.any fun r => r.date == d) = true) :
    (putDayLabel st d l t).1.dayLabels =
      st.dayLabels ++
        [{ id := st.nextLabelId, date := d, label := l, created_at := t,
           updated_at := t }] := by
  unfold putDayLabel
  rw [if_neg hex]

theorem putDayLabel_uniq (st : SchoolTables) (d l : String) (t : Nat)
    (d2 : String)
    (h : (st.dayLabels.filter (fun r => r.date == d2)).length ≤ 1) :
    ((putDayLabel st d l t).1.dayLabels.filter
      (fun r => r.date == d2)).length ≤ 1 := by
  by_cases hex : (st.dayLabels.any fun r => r.date == d) = true
  · rw [putDayLabel_dayLabels_update l t hex, dayLabels_filter_map]
    simpa using h
  · rw [putDayLabel_dayLabels_insert l t hex, List.filter_append,
      List.length_append]
    by_cases hdd : (d == d2) = true
    · have hnone : st.dayLabels.filter (fun r => r.date == d2) = [] := by
        refine List.filter_eq_nil_iff.mpr fun r hr hp => ?_
        refine absurd (List.any_eq_true.mpr ⟨r, hr, ?_⟩) hex
        have h1 : r.date = d2 := by simpa using hp
        have h2 : d = d2 := by simpa using hdd
        simp [h1, h2]
      have hle := List.length_filter_le (fun (r : DayLabelRow) => r.date == d2)
        [{ id := st.nextLabelId, date := d, label := l, created_at := t,
           updated_at := t }]
      simp only [List.length_singleton] at hle
      rw [hnone]
      simpa using hle
    · have hdd2 : (d == d2) = false := by simpa using hdd
      have hsing : List.filter (fun (r : DayLabelRow) => r.date == d2)
          [{ id := st.nextLabelId, date := d, label := l, created_at := t,
             updated_at := t }] = [] := by
        simp [List.filter, hdd2]
      rw [hsing]
      simpa using h

theorem putDayLabel_sets (st : SchoolTables) (d l : String) (t : Nat)
    (h : (st.dayLabels.filter (fun r => r.date == d)).length ≤ 1) :
    ∃ i c, (putDayLabel st d l t).1.dayLabels.filter (fun r => r.date == d) =
      [{ id := i, date := d, label := l, created_at := c,
         updated_at := t }] := by
  by_cases hex : (st.dayLabels.any fun r => r.date == d) = true
  · obtain ⟨r0, hr0, hp0⟩ := List.any_eq_true.mp hex
    have hmem : r0 ∈ st.dayLabels.filter (fun r => r.date == d) :=
      List.mem_filter.mpr ⟨hr0, hp0⟩
    have hpos : 0 < (st.dayLabels.filter (fun r => r.date == d)).length :=
      List.length_pos.mpr (fun hnil => by simp [hnil] at hmem)
    have hlen1 : (st.dayLabels.filter (fun r => r.date == d)).length = 1 := by
      omega
    obtain ⟨a, ha⟩ := List.length_eq_one.mp hlen1
    have had : a.date = d := by
      have hma : a ∈ st.dayLabels.filter (fun r => r.date == d) := by
        simp [ha]
      simpa using (List.mem_filter.mp hma).2
    refine ⟨a.id, a.created_at, ?_⟩
    rw [putDayLabel_dayLabels_update l t hex, dayLabels_filter_map, ha]
    simp [updDL, had]
  · have hnone : st.dayLabels.filter (fun r => r.date == d) = [] := by
      refine List.filter_eq_nil_iff.mpr fun r hr hp => ?_
      exact absurd (List.any_eq_true.mpr ⟨r, hr, hp⟩) hex
    refine ⟨st.nextLabelId, t, ?_⟩
    rw [putDayLabel_dayLabels_insert l t hex, List.filter_append, hnone]
    simp

theorem validRows_event_id {eid : Nat} {l : List (String × CurricReq)}
    {c : CurricRow} (hc : c ∈ validRows eid l) : c.event_id = eid := by
  simp only [validRows, List.mem_map] at hc
  obtain ⟨gc, _, rfl⟩ := hc
  rfl

theorem map_view_validRows (eid : Nat) (l : List (String × CurricReq)) :
    (validRows eid l).map (fun c =>
      ({ grade := c.grade, links := c.links, description := c.description }
        : CurricView)) = reqViews l := by
  simp only [validRows, reqViews, List.map_map]
  rfl

theorem curricViewsOf_eq (st : SchoolTables) (eid : Nat)
    (base : List CurricRow) (l : List (String × CurricReq))
    (h : st.curriculum = base ++ validRows eid l)
    (hfresh : ∀ c ∈ base, c.event_id ≠ eid) :
    curricViewsOf st eid = reqViews l := by
  unfold curricViewsOf
  rw [h, List.filter_append]
  have h1 : base.filter (fun c => c.event_id == eid) = [] :=
    List.filter_eq_nil_iff.mpr (fun c hc => by simpa using hfresh c hc)
  have h2 : (validRows eid l).filter (fun c => c.event_id == eid) =
      validRows eid l :=
    List.filter_eq_self.mpr (fun c hc => by
      simpa using validRows_event_id hc)
  rw [h1, h2, List.nil_append]
  exact map_view_validRows eid l

/-! ## Claim theorems -/

/-- C1: for every admin-gated mutating route (the requireAdmin wrapper around
an arbitrary handler), a request whose X-Admin-Session header is absent (or
empty, which the middleware treats the same way), or whose token matches no
session row, or matches only rows whose expiry is not strictly in the
future, receives a 401 response and leaves the stored state untouched: the
wrapped handler is never reached, whatever it would have done. -/
theorem requireAdmin_blocks_unauthenticated
    (handler : State → State × Nat) (s : State) (now : Nat)
    (hdr : Option String)
    (h : hdr = none ∨ hdr = some "" ∨
         ∃ tok, hdr = some tok ∧
           ∀ r ∈ s.sessions, r.session_id = tok → r.expires_at ≤ now) :
    gate handler hdr now s = (s, 401) := by
  rcases h with h | h | ⟨tok, htok, hall⟩
  · subst h; rfl
  · subst h; rfl
  · subst htok
    unfold gate
    by_cases he : tok = ""
    · simp [he]
    · simp [he, sessionQuery_eq_nil hall]

/-- Witness for C1: with one live and one expired session stored, a request
naming the expired token bounces with 401 and the session-clearing handler
never runs. -/
theorem requireAdmin_blocks_unauthenticated_w :
    gate exMutator (some "oldtok") 100 exState = (exState, 401) :=
  requireAdmin_blocks_unauthenticated exMutator exState 100 (some "oldtok")
    (Or.inr (Or.inr ⟨"oldtok", rfl, by decide⟩))

/-- C2: the session check used by POST /api/admin/verify and the admin gate
returns true iff a session row carries the token with an expiry strictly in
the future; it returns false for an absent or empty input, false immediately
after a logout of the token, and false once the session lifetime (8 hours)
has elapsed since a login issued the token; being a total function, it never
throws on any of these inputs. -/
theorem validateSession_spec :
    (∀ (sessions : List SessionRow) (now : Nat) (tok : String), tok ≠ "" →
      (validateSession sessions now (some tok) = true ↔
        ∃ r ∈ sessions, r.session_id = tok ∧ now < r.expires_at)) ∧
    (∀ (sessions : List SessionRow) (now : Nat),
      validateSession sessions now none = false ∧
      validateSession sessions now (some "") = false) ∧
    (∀ (s : State) (tok : String) (now : Nat),
      validateSession (logout s (some tok)).1.sessions now (some tok)
        = false) ∧
    (∀ (s : State) (now : Nat) (sid pwd : String) (t : Nat),
      (∀ r ∈ s.sessions, r.session_id ≠ sid) →
      now + sessionLifetime ≤ t →
      validateSession (login s now sid pwd).1.sessions t (some sid)
        = false) := by
  refine ⟨fun sessions now tok htok => ?_, fun sessions now => ⟨rfl, rfl⟩,
    fun s tok now => ?_, fun s now sid pwd t hfresh ht => ?_⟩
  · have he : (tok == "") = false := by simpa using htok
    constructor
    · intro hv
      have hne : sessionQuery sessions tok now ≠ [] := fun hnil => by
        rw [validateSession_false_of_nil he hnil] at hv
        exact Bool.false_ne_true hv
      obtain ⟨r, hr⟩ := List.exists_mem_of_ne_nil _ hne
      obtain ⟨h1, h2, h3⟩ := sessionQuery_mem_iff.mp hr
      exact ⟨r, h1, h2, h3⟩
    · rintro ⟨r, hr, h1, h2⟩
      rw [validateSession_some sessions now tok he]
      have hmem : r ∈ sessionQuery sessions tok now :=
        sessionQuery_mem_iff.mpr ⟨hr, h1, h2⟩
      cases hq : sessionQuery sessions tok now with
      | nil => rw [hq] at hmem; exact absurd hmem (List.not_mem_nil r)
      | cons a as => rfl
  · by_cases he : tok = ""
    · simp [he, validateSession]
    · have he2 : (tok == "") = false := by simpa using he
      refine validateSession_false_of_nil he2 (sessionQuery_eq_nil ?_)
      intro r hr h1
      exfalso
      rw [logout_sessions he2] at hr
      have := (List.mem_filter.mp hr).2
      simp [h1] at this
  · have hsid : ∀ r ∈ (login s now sid pwd).1.sessions,
        r.session_id = sid → r.expires_at ≤ t := by
      intro r hr h1
      by_cases hp : pwd = "Lions"
      · subst hp
        rw [login_ok_sessions] at hr
        rcases List.mem_append.mp hr with hr2 | hr2
        · exact absurd h1 (hfresh r (List.mem_filter.mp hr2).1)
        · rw [List.mem_singleton.mp hr2]
          simpa using ht
      · rw [login_bad hp] at hr
        exact absurd h1 (hfresh r hr)
    by_cases he : sid = ""
    · simp [he, validateSession]
    · have he2 : (sid == "") = false := by simpa using he
      exact validateSession_false_of_nil he2 (sessionQuery_eq_nil hsid)

/-- Witness for C2: a freshly issued session validates while live, stops
validating the moment its 8-hour expiry is no longer strictly in the
future, and stops validating immediately after logout. -/
theorem validateSession_spec_w :
    validateSession [{ session_id := "abc", created_at := 0,
                       expires_at := 100 }] 50 (some "abc") = true ∧
    validateSession
      (login emptyState 0 "tok" "Lions").1.sessions sessionLifetime
      (some "tok") = false ∧
    validateSession (logout exState (some "livetok")).1.sessions 100
      (some "livetok") = false := by
  refine ⟨?_, ?_, validateSession_spec.2.2.1 exState "livetok" 100⟩
  · exact (validateSession_spec.1 _ 50 "abc" (by decide)).mpr
      ⟨{ session_id := "abc", created_at := 0, expires_at := 100 },
        by simp, rfl, by decide⟩
  · exact validateSession_spec.2.2.2 emptyState 0 "tok" "Lions"
      sessionLifetime (by intro r hr; simp [emptyState] at hr)
      (by simp)

/-- C3: the event-with-curriculum writes are atomic.  A successful
POST /api/:school/events (201) commits the new event row together with the
complete retained child set in one step, and any other outcome is a 500 that
leaves the state exactly as it was.  A successful PUT /api/:school/events/:id
(200) commits the event update together with the full child replacement
(old children of the event deleted, the complete new set inserted), and any
other outcome (404 or 500) leaves the state exactly as it was: a failure
partway rolls the event mutation back too. -/
theorem eventCurriculumWrite_atomic (st : SchoolTables) (req : EventReq)
    (id : Nat) :
    ((postEvent st req).2 = 201 →
      ∃ t d dep, req.title = some t ∧ req.date = some d ∧
        req.department = some dep ∧
        (postEvent st req).1 = { st with
          events := st.events ++
            [mkEvent st.nextEventId t d (jsOrNull req.time) dep
              req.description],
          nextEventId := st.nextEventId + 1,
          curriculum := st.curriculum ++
            validRows st.nextEventId (req.lifeCurriculum.getD []) }) ∧
    ((postEvent st req).2 ≠ 201 →
      (postEvent st req).2 = 500 ∧ (postEvent st req).1 = st) ∧
    ((putEvent st id req).2 = 200 →
      ∃ t d dep, req.title = some t ∧ req.date = some d ∧
        req.department = some dep ∧
        (putEvent st id req).1 = { st with
          events := st.events.map (fun e =>
            if e.id == id then
              { e with title := t, date := d, time := jsOrNull req.time,
                       department := dep, description := req.description }
            else e),
          curriculum :=
            st.curriculum.filter (fun c => !(c.event_id == id)) ++
              validRows id (req.lifeCurriculum.getD []) }) ∧
    ((putEvent st id req).2 ≠ 200 →
      (putEvent st id req).1 = st ∧
      ((putEvent st id req).2 = 404 ∨ (putEvent st id req).2 = 500)) := by
  refine ⟨?_, ?_, ?_, ?_⟩
  · intro h201
    cases htx : txCreate st req with
    | error e => simp [postEvent, htx] at h201
    | ok st2 =>
      obtain ⟨t, d, dep, ht, hd, hdep, hshape⟩ := txCreate_ok htx
      exact ⟨t, d, dep, ht, hd, hdep, by simp [postEvent, htx, hshape]⟩
  · intro hne
    cases htx : txCreate st req with
    | error e => simp [postEvent, htx]
    | ok st2 => simp [postEvent, htx] at hne
  · intro h200
    cases htx : txUpdate st id req with
    | error c =>
      have hc := txUpdate_error htx
      simp [putEvent, htx] at h200
      rcases hc with hc | hc <;> omega
    | ok st2 =>
      obtain ⟨t, d, dep, ht, hd, hdep, hshape⟩ := txUpdate_ok htx
      exact ⟨t, d, dep, ht, hd, hdep, by simp [putEvent, htx, hshape]⟩
  · intro hne
    cases htx : txUpdate st id req with
    | error c =>
      exact ⟨by simp [putEvent, htx], by
        simpa [putEvent, htx] using txUpdate_error htx⟩
    | ok st2 => simp [putEvent, htx] at hne

/-- Witness for C3: a create whose curriculum carries a grade outside the
CHECK range fails as a whole, returning 500 with the tables untouched, and a
well-formed create commits event and children together. -/
theorem eventCurriculumWrite_atomic_w :
    ((postEvent emptySchoolTables exBadEventReq).2 = 500 ∧
      (postEvent emptySchoolTables exBadEventReq).1 = emptySchoolTables) ∧
    (postEvent emptySchoolTables exEventReq).2 = 201 :=
  ⟨(eventCurriculumWrite_atomic emptySchoolTables exBadEventReq 0).2.1
      (by decide),
    by decide⟩

/-- C4: the DayLabel upsert is idempotent.  Starting from a table respecting
the UNIQUE date constraint, issuing the same PUT /api/:school/day-labels
write twice leaves exactly one row for the date, carrying the written label
with updated_at refreshed to the time of the later write, the same single
row (up to the audit created_at column and generated id) that issuing the
write once at that time produces; and uniqueness-by-date is preserved at
every date under any repeated write. -/
theorem dayLabelUpsert_idempotent (st : SchoolTables) (d l : String)
    (t1 t2 : Nat)
    (h : (st.dayLabels.filter (fun r => r.date == d)).length ≤ 1) :
    (∃ i c, ((putDayLabel (putDayLabel st d l t1).1 d l t2).1.dayLabels.filter
        (fun r => r.date == d)) =
      [{ id := i, date := d, label := l, created_at := c,
         updated_at := t2 }]) ∧
    (∃ i c, ((putDayLabel st d l t2).1.dayLabels.filter
        (fun r => r.date == d)) =
      [{ id := i, date := d, label := l, created_at := c,
         updated_at := t2 }]) ∧
    (∀ d2, (st.dayLabels.filter (fun r => r.date == d2)).length ≤ 1 →
      ((putDayLabel (putDayLabel st d l t1).1 d l t2).1.dayLabels.filter
        (fun r => r.date == d2)).length ≤ 1) :=
  ⟨putDayLabel_sets _ d l t2 (putDayLabel_uniq st d l t1 d h),
    putDayLabel_sets st d l t2 h,
    fun d2 h2 =>
      putDayLabel_uniq _ d l t2 d2 (putDayLabel_uniq st d l t1 d2 h2)⟩

/-- Witness for C4: writing label A for 2025-06-01 twice into an empty table
leaves a single row for the date with updated_at equal to the second write
time. -/
theorem dayLabelUpsert_idempotent_w :
    ∃ i c, ((putDayLabel (putDayLabel emptySchoolTables "2025-06-01" "A" 5).1
        "2025-06-01" "A" 9).1.dayLabels.filter
          (fun r => r.date == "2025-06-01")) =
      [{ id := i, date := "2025-06-01", label := "A", created_at := c,
         updated_at := 9 }] :=
  (dayLabelUpsert_idempotent emptySchoolTables "2025-06-01" "A" 5 9
    (by decide)).1

/-- C5: a write carrying the designated clear sentinel deletes the row for
the date instead of storing the sentinel.  PUT /api/:school/special-days
with type normal answers 200 and afterwards no row for the date is stored
and none appears in the GET /api/:school/special-days response; POST
/api/day-schedules with a null or empty schedule answers 200 and afterwards
no day_schedules row for the (parsed) date remains, so the clear state is
the absence of the row, not a stored empty marker. -/
theorem clearSentinelDeletesRow :
    (∀ (st : SchoolTables) (date : String) (descr : Option String)
        (now : Nat),
      (putSpecialDay st date "normal" descr now).2 = 200 ∧
      (∀ r ∈ (putSpecialDay st date "normal" descr now).1.specialDays,
        r.date ≠ date) ∧
      (∀ r ∈ getSpecialDays (putSpecialDay st date "normal" descr now).1,
        r.date ≠ date)) ∧
    (∀ (p : String → Option CivilDate) (tb : TablesV2) (ds : String)
        (d : CivilDate) (sched : Option String),
      ds ≠ "" → p ds = some d → jsStrFalsy sched = true →
      (postDaySchedule p tb { date := some ds, schedule := sched }).2.1
        = 200 ∧
      (∀ r ∈ (postDaySchedule p tb
          { date := some ds, schedule := sched }).1.day_schedules,
        r.date ≠ d)) := by
  constructor
  · intro st date descr now
    have hmem : ∀ r ∈ (putSpecialDay st date "normal" descr now).1.specialDays,
        r.date ≠ date := by
      intro r hr
      simp only [putSpecialDay] at hr
      norm_num at hr
      exact hr.2
    exact ⟨by simp [putSpecialDay], hmem, fun r hr => hmem r hr⟩
  · intro p tb ds d sched hds hp hf
    have hne : (ds == "") = false := by simpa using hds
    constructor
    · simp [postDaySchedule, hne, hp, hf]
    · intro r hr
      simp only [postDaySchedule, hne, Bool.false_eq_true, if_false, hp,
        hf, if_true] at hr
      have := (List.mem_filter.mp hr).2
      simpa using this

/-- Witness for C5: clearing the finals day 2025-06-16 with type normal
leaves no special-day row for that date, and posting a null schedule for
2025-06-01 removes its day_schedules row. -/
theorem clearSentinelDeletesRow_w :
    (∀ r ∈ (putSpecialDay exSpecialTables "2025-06-16" "normal" none
        7).1.specialDays, r.date ≠ "2025-06-16") ∧
    (∀ r ∈ (postDaySchedule modelParse exTablesV2
        { date := some "2025-06-01", schedule := none }).1.day_schedules,
      r.date ≠ { year := 2025, month := 6, day := 1 }) :=
  ⟨(clearSentinelDeletesRow.1 exSpecialTables "2025-06-16" none 7).2.1,
    (clearSentinelDeletesRow.2 modelParse exTablesV2 "2025-06-01"
      { year := 2025, month := 6, day := 1 } none (by decide) (by decide)
      rfl).2⟩

/-- C7: GET /api/:school/events returns each event in scope with its
curriculum children aggregated into a list embedded on the parent.  An
event with no child rows carries the empty list (the COALESCE of the
aggregate, never null and never an omitted field); an event just created
with curriculum entries for only some grades lists exactly the retained
entries, the other grades absent rather than present as null entries; and
since a JavaScript object with integer-index keys enumerates them ascending,
the aggregated grades of such a request are strictly ascending. -/
theorem listEventsCurriculum_spec :
    (∀ (st : SchoolTables) (dept : Option String) (v : EventView),
      v ∈ getEvents st dept →
      (∀ c ∈ st.curriculum, c.event_id ≠ v.event.id) →
      v.life_curriculum = []) ∧
    (∀ (st : SchoolTables) (req : EventReq),
      (postEvent st req).2 = 201 →
      (∀ c ∈ st.curriculum, c.event_id ≠ st.nextEventId) →
      ∃ ev, ev ∈ (postEvent st req).1.events ∧ ev.id = st.nextEventId ∧
        ({ event := ev,
           life_curriculum := reqViews (req.lifeCurriculum.getD []) }
          : EventView) ∈ getEvents (postEvent st req).1 none ∧
        (reqViews (req.lifeCurriculum.getD [])).map (fun v => v.grade) =
          gradeNums (req.lifeCurriculum.getD [])) ∧
    (∀ (l : List (String × CurricReq)),
      l.Pairwise (fun a b =>
        (parseIntJs a.1).getD 0 < (parseIntJs b.1).getD 0) →
      (gradeNums l).Pairwise (· < ·)) := by
  refine ⟨fun st dept v hv hnone => ?_, fun st req h201 hfresh => ?_,
    fun l hpw => ?_⟩
  · simp only [getEvents, List.mem_map] at hv
    obtain ⟨e, he, rfl⟩ := hv
    simp only [curricViewsOf]
    have hnil : st.curriculum.filter (fun c => c.event_id == e.id) = [] := by
      refine List.filter_eq_nil_iff.mpr fun c hc => ?_
      simpa using hnone c hc
    rw [hnil]
    rfl
  · cases htx : txCreate st req with
    | error e => simp [postEvent, htx] at h201
    | ok st2 =>
      obtain ⟨t, d, dep, ht, hd, hdep, hshape⟩ := txCreate_ok htx
      subst hshape
      refine ⟨mkEvent st.nextEventId t d (jsOrNull req.time) dep
        req.description, ?_, rfl, ?_, ?_⟩
      · simp [postEvent, htx]
      · simp only [postEvent, htx]
        simp only [getEvents, eventsInScope, List.mem_map]
        refine ⟨mkEvent st.nextEventId t d (jsOrNull req.time) dep
          req.description, by simp, ?_⟩
        have hviews := curricViewsOf_eq
          { st with
            events := st.events ++
              [mkEvent st.nextEventId t d (jsOrNull req.time) dep
                req.description],
            nextEventId := st.nextEventId + 1,
            curriculum := st.curriculum ++
              validRows st.nextEventId (req.lifeCurriculum.getD []) }
          st.nextEventId st.curriculum (req.lifeCurriculum.getD []) rfl
          hfresh
        simpa [mkEvent] using hviews
      · simp only [reqViews, gradeNums, List.map_map]
        rfl
  · have h1 := hpw.filter
      (fun gc => jsTruthy gc.2.links || jsTruthy gc.2.description)
    exact List.pairwise_map.mpr h1

/-- Witness for C7: creating an event with curriculum for grades 9 and 11
and reading the listing back yields exactly those two entries, in ascending
grade order. -/
theorem listEventsCurriculum_spec_w :
    (∃ ev, ev ∈ (postEvent emptySchoolTables exEventReq).1.events ∧
      ev.id = emptySchoolTables.nextEventId ∧
      ({ event := ev,
         life_curriculum := reqViews (exEventReq.lifeCurriculum.getD []) }
        : EventView) ∈ getEvents (postEvent emptySchoolTables exEventReq).1
          none ∧
      (reqViews (exEventReq.lifeCurriculum.getD [])).map (fun v => v.grade) =
        gradeNums (exEventReq.lifeCurriculum.getD [])) ∧
    (gradeNums exCurricReq).Pairwise (· < ·) :=
  ⟨listEventsCurriculum_spec.2.1 emptySchoolTables exEventReq (by decide)
      (by simp [emptySchoolTables]),
    listEventsCurriculum_spec.2.2 exCurricReq (by decide)⟩

/-- Counterexample for C6: the claim says a day-label value outside its
fixed enumeration fails with a 400 before any query runs and changes no
stored state.  But PUT /api/:school/day-labels/:date never validates the
label: writing the out-of-enumeration label Z answers 200 and stores the
row. -/
theorem inputValidation_cex :
    (putDayLabel emptySchoolTables "2025-06-01" "Z" 0).2 = 200 ∧
    (putDayLabel emptySchoolTables "2025-06-01" "Z" 0).1.dayLabels =
      [{ id := 0, date := "2025-06-01", label := "Z", created_at := 0,
         updated_at := 0 }] := by
  decide

/-- C6 as amended: an invalid school code fails with 400 before any query
and changes nothing on the cited routes; an invalid special-day type
(neither the clear sentinel normal nor one of the six allowed values) fails
with 400 changing nothing; a truthy day-schedule value outside A/B fails
with 400 changing nothing (once the date has parsed, since the route formats
the date first); but the day-label value is never validated: every label
value is accepted with 200 and passed into the upsert. -/
theorem inputValidation_amended :
    (∀ (s : State) (school date label ty : String) (descr : Option String)
        (now : Nat),
      validateSchool school = false →
        putDayLabelRoute s school date label now = (s, 400) ∧
        putSpecialDayRoute s school date ty descr now = (s, 400)) ∧
    (∀ (st : SchoolTables) (date ty : String) (descr : Option String)
        (now : Nat),
      ty ≠ "normal" → allowedTypes.contains ty = false →
      putSpecialDay st date ty descr now = (st, 400)) ∧
    (∀ (p : String → Option CivilDate) (tb : TablesV2) (ds sched : String)
        (d : CivilDate),
      ds ≠ "" → p ds = some d → sched ≠ "" → sched ≠ "A" → sched ≠ "B" →
      postDaySchedule p tb { date := some ds, schedule := some sched }
        = (tb, 400, none)) ∧
    (∀ (st : SchoolTables) (date label : String) (now : Nat),
      (putDayLabel st date label now).2 = 200) := by
  refine ⟨fun s school date label ty descr now hv => ?_,
    fun st date ty descr now hn hc => ?_,
    fun p tb ds sched d hds hp hs hsa hsb => ?_,
    fun st date label now => ?_⟩
  · have h1 : (school == "wlhs") = false := by
      by_cases h : school = "wlhs"
      · simp [validateSchool, h] at hv
      · simpa using h
    have h2 : (school == "wvhs") = false := by
      by_cases h : school = "wvhs"
      · simp [validateSchool, h] at hv
      · simpa using h
    exact ⟨by simp [putDayLabelRoute, h1, h2],
      by simp [putSpecialDayRoute, h1, h2]⟩
  · have hn2 : (ty == "normal") = false := by simpa using hn
    have hc2 : ty ∉ allowedTypes := by simpa using hc
    simp [putSpecialDay, hn2, hc2]
  · have hne : (ds == "") = false := by simpa using hds
    have hs2 : jsStrFalsy (some sched) = false := by simpa [jsStrFalsy] using hs
    have hsa2 : (sched == "A") = false := by simpa using hsa
    have hsb2 : (sched == "B") = false := by simpa using hsb
    simp [postDaySchedule, hne, hp, hs2, hsa2, hsb2]
  · unfold putDayLabel
    split <;> rfl

/-- Witness for the amended C6: an unknown school answers 400 untouched, an
unknown special-day type answers 400 untouched, and a day-schedule value C
answers 400 untouched. -/
theorem inputValidation_amended_w :
    putDayLabelRoute exState "zzz" "2025-06-01" "A" 0 = (exState, 400) ∧
    putSpecialDay exSpecialTables "2025-06-16" "party" none 0
      = (exSpecialTables, 400) ∧
    postDaySchedule modelParse exTablesV2
      { date := some "2025-06-01", schedule := some "C" }
      = (exTablesV2, 400, none) :=
  ⟨(inputValidation_amended.1 exState "zzz" "2025-06-01" "A" "x" none 0
      (by decide)).1,
    inputValidation_amended.2.1 exSpecialTables "2025-06-16" "party" none 0
      (by decide) (by decide),
    inputValidation_amended.2.2.1 modelParse exTablesV2 "2025-06-01" "C"
      { year := 2025, month := 6, day := 1 } (by decide) (by decide)
      (by decide) (by decide) (by decide)⟩

/-- Counterexample for C8: the claim says a write whose date does not parse
fails with a ValidationError (HTTP 400).  But POST /api/day-schedules runs
formatDate inside its try/catch, and the thrown Invalid-date error lands in
the generic handler, which answers 500, not 400.  The input not-a-date
contains no digit, so every JavaScript engine makes it an Invalid Date
(jsNewDate decides it as nan), and modelParse agrees with the engine on
it. -/
theorem dateValidationStatus_cex :
    (postDaySchedule modelParse emptyTablesV2
      { date := some "not-a-date", schedule := some "A" }).2.1 = 500 ∧
    ¬ (postDaySchedule modelParse emptyTablesV2
      { date := some "not-a-date", schedule := some "A" }).2.1 = 400 := by
  decide

/-- C8 as amended: every date leaving the service is the canonical padded
year-month-day text, and the statements hold for every engine string-date
parse p (p s is the ISO date part of new Date(s), none when Invalid), so
they cover every shape the engine accepts, not only the shapes jsNewDate
decides.  A native Date value renders as its ISO date part; any two
nonempty strings the engine parses to the same calendar date format
identically, to that same canonical text; a write whose date the engine
rejects fails with HTTP 500 (the route's generic catch), not 400, leaving
the state untouched; a write whose date the engine accepts echoes the
canonical text (or is a 400 for an invalid schedule value); and every row
of the GET /api/day-schedules response carries the canonical rendering of
its stored date. -/
theorem dateNormalization_amended :
    (∀ (p : String → Option CivilDate) (d : CivilDate),
      formatDate p (JsDateInput.obj d) = .ok (some (toISODate d))) ∧
    (∀ (p : String → Option CivilDate) (s1 s2 : String) (d : CivilDate),
      s1 ≠ "" → s2 ≠ "" → p s1 = some d → p s2 = some d →
      formatDate p (JsDateInput.str s1) = formatDate p (JsDateInput.str s2) ∧
      formatDate p (JsDateInput.str s1) = .ok (some (toISODate d))) ∧
    (∀ (p : String → Option CivilDate) (tb : TablesV2) (ds : String)
        (sched : Option String),
      ds ≠ "" → p ds = none →
      postDaySchedule p tb { date := some ds, schedule := sched }
        = (tb, 500, none)) ∧
    (∀ (p : String → Option CivilDate) (tb : TablesV2) (ds : String)
        (d : CivilDate) (sched : Option String),
      ds ≠ "" → p ds = some d →
      (postDaySchedule p tb { date := some ds, schedule := sched }).2.2
          = some (toISODate d) ∨
      (postDaySchedule p tb { date := some ds, schedule := sched }).2.1
          = 400) ∧
    (∀ (p : String → Option CivilDate) (tb : TablesV2) (v : DSView),
      v ∈ getDaySchedules p tb →
      ∃ r ∈ tb.day_schedules,
        v.date = toISODate r.date ∧ v.schedule = r.schedule) := by
  refine ⟨fun p d => rfl, fun p s1 s2 d hs1 hs2 hp1 hp2 => ?_,
    fun p tb ds sched hds hp => ?_, fun p tb ds d sched hds hp => ?_,
    fun p tb v hv => ?_⟩
  · have hne1 : (s1 == "") = false := by simpa using hs1
    have hne2 : (s2 == "") = false := by simpa using hs2
    constructor
    · simp [formatDate, hne1, hne2, hp1, hp2]
    · simp [formatDate, hne1, hp1]
  · have hne : (ds == "") = false := by simpa using hds
    simp [postDaySchedule, hne, hp]
  · have hne : (ds == "") = false := by simpa using hds
    by_cases hf : jsStrFalsy sched = true
    · left
      simp [postDaySchedule, hne, hp, hf]
    · have hf2 : jsStrFalsy sched = false := by simpa using hf
      by_cases hab : ((sched.getD "" == "A") || (sched.getD "" == "B"))
          = true
      · left
        simp [postDaySchedule, hne, hp, hf2, hab]
      · right
        have hab2 : ((sched.getD "" == "A") || (sched.getD "" == "B"))
            = false := by simpa using hab
        simp [postDaySchedule, hne, hp, hf2, hab2]
  · simp only [getDaySchedules, List.mem_map] at hv
    obtain ⟨r, hr, rfl⟩ := hv
    exact ⟨r, hr, rfl, rfl⟩

/-- Witness for the amended C8: the ISO date 2025-06-01 and the ISO
date-time 2025-06-01T14:30:00.000Z (the JSON rendering of a native Date,
a shape the engine accepts) both normalize to the canonical text of the
same calendar day — the date-time write succeeds and echoes it — while the
digitless string totally-invalid, an Invalid Date in every engine, makes
the write answer 500 with the tables untouched. -/
theorem dateNormalization_amended_w :
    (formatDate modelParse (JsDateInput.str "2025-06-01")
        = formatDate modelParse
            (JsDateInput.str "2025-06-01T14:30:00.000Z") ∧
      formatDate modelParse (JsDateInput.str "2025-06-01")
        = .ok (some (toISODate { year := 2025, month := 6, day := 1 }))) ∧
    ((postDaySchedule modelParse exTablesV2
        { date := some "2025-06-01T14:30:00.000Z",
          schedule := some "A" }).2.2
        = some (toISODate { year := 2025, month := 6, day := 1 }) ∨
      (postDaySchedule modelParse exTablesV2
        { date := some "2025-06-01T14:30:00.000Z",
          schedule := some "A" }).2.1 = 400) ∧
    postDaySchedule modelParse exTablesV2
      { date := some "totally-invalid", schedule := some "A" }
      = (exTablesV2, 500, none) :=
  ⟨dateNormalization_amended.2.1 modelParse "2025-06-01"
      "2025-06-01T14:30:00.000Z" { year := 2025, month := 6, day := 1 }
      (by decide) (by decide) (by decide) (by decide),
    dateNormalization_amended.2.2.2.1 modelParse exTablesV2
      "2025-06-01T14:30:00.000Z" { year := 2025, month := 6, day := 1 }
      (some "A") (by decide) (by decide),
    dateNormalization_amended.2.2.1 modelParse exTablesV2 "totally-invalid"
      (some "A") (by decide) (by decide)⟩

/-- C9: DELETE /api/clear-all does wipe every table of its data model, but
it is not admin-gated.  The handler (whose own comment calls it an admin
function) reads no session header and performs no check before the four
DELETE statements: evaluated on a state holding rows in all four tables,
with no admin session anywhere in sight, it answers 200 and leaves every
table empty, where the claim demands a 401 for such a caller. -/
theorem clearAllUngated_eval :
    (∀ tb : TablesV2, clearAll tb =
      ({ day_schedules := [], day_types := [], events := [],
         materials := [] }, 200)) ∧
    exTablesV2.materials ≠ [] ∧ exTablesV2.events ≠ [] ∧
    exTablesV2.day_schedules ≠ [] ∧ exTablesV2.day_types ≠ [] :=
  ⟨fun tb => rfl, by decide⟩

/-- C10: issuing a new admin session never invalidates other live sessions.
A successful login deletes exactly the rows whose expiry has already passed
and appends one fresh row; a failed login changes nothing; logout deletes
only the row matching the supplied token.  Hence every session row that was
unexpired before either operation is still stored (with the same expiry)
afterwards, so arbitrarily many concurrent sessions coexist. -/
theorem adminSessions_frame
    (s : State) (now : Nat) (sid tok pwd : String) :
    (pwd = "Lions" →
      (login s now sid pwd).1.sessions =
        s.sessions.filter (fun r => !decide (r.expires_at < now)) ++
          [{ session_id := sid, created_at := now,
             expires_at := now + sessionLifetime }]) ∧
    (pwd ≠ "Lions" → (login s now sid pwd).1 = s) ∧
    (∀ r ∈ s.sessions, now < r.expires_at →
      r ∈ (login s now sid pwd).1.sessions) ∧
    ((logout s (some tok)).1.sessions =
      if tok = "" then s.sessions
      else s.sessions.filter (fun r => !(r.session_id == tok))) ∧
    (∀ r ∈ s.sessions, r.session_id ≠ tok →
      r ∈ (logout s (some tok)).1.sessions) := by
  refine ⟨fun hp => by subst hp; exact login_ok_sessions s now sid,
    fun hp => by rw [login_bad hp],
    fun r hr hlive => ?_, ?_, fun r hr hne => ?_⟩
  · by_cases hp : pwd = "Lions"
    · subst hp
      rw [login_ok_sessions]
      refine List.mem_append.mpr (Or.inl (List.mem_filter.mpr ⟨hr, ?_⟩))
      have : ¬ r.expires_at < now := Nat.not_lt.mpr (Nat.le_of_lt hlive)
      simpa using this
    · rw [login_bad hp]
      exact hr
  · by_cases he : tok = ""
    · simp [logout, he]
    · have he2 : (tok == "") = false := by simpa using he
      rw [logout_sessions he2, if_neg he]
  · by_cases he : tok = ""
    · simpa [logout, he] using hr
    · have he2 : (tok == "") = false := by simpa using he
      rw [logout_sessions he2]
      exact List.mem_filter.mpr ⟨hr, by simpa using hne⟩

/-- Witness for C10: after a second login, the earlier live session is still
stored, and logging out one token leaves the other session in place. -/
theorem adminSessions_frame_w :
    ({ session_id := "livetok", created_at := 0, expires_at := 1000 }
        : SessionRow) ∈ (login exState 100 "newtok" "Lions").1.sessions ∧
    ({ session_id := "livetok", created_at := 0, expires_at := 1000 }
        : SessionRow) ∈ (logout exState (some "oldtok")).1.sessions :=
  ⟨((adminSessions_frame exState 100 "newtok" "oldtok" "Lions").2.2.1 _
      (by simp [exState, exSessions]) (by decide)),
    ((adminSessions_frame exState 100 "newtok" "oldtok" "Lions").2.2.2.2 _
      (by simp [exState, exSessions]) (by decide))⟩

end Calendar
